import Mathlib

/-!
Shallow embedding of the petrol-price forecasting pipeline
(`src/scraper/data_ingestion_service.py`, `src/ml_pipeline/preprocess.py`,
`src/ml_pipeline/feature_engineering.py`, `src/ml_pipeline/model_registry.py`,
`src/ml_pipeline/predict.py`, `src/backend/services/prediction_service.py`,
`src/db/models.py`).

Modelling conventions:
* Calendar dates are day numbers (`ℕ` for stored rows, `ℤ` for forecast
  dates, which are produced by `datetime` arithmetic relative to "now").
* Python/NumPy floats and SQL `DECIMAL` values are modelled as `ℚ`; the
  claims under study concern counts, null-ness, clamping and exact
  recurrences, not float rounding.
* A SQL table is a list of rows in insertion order; `query.first()` on an
  `order_by` is the corresponding argmin/argmax over the list (first row
  among ties, matching the engine's stable scan of unique-key data).
* The Keras model together with its scaler is an opaque function
  `ForecastState → ℚ` giving the raw scalar prediction; claims about the
  forecaster quantify over it.
* `None`/`NaN` cells are `Option.none`; Python truthiness on a numeric
  cell (`x if x else d`) is falsy exactly on `None` and `0`.
-/

namespace Petrol

/-- Python truthiness fallback on an optional numeric cell:
`v if v else d` where `None` and `0` are falsy. -/
def truthyOrQ (v : Option ℚ) (d : ℚ) : ℚ :=
  match v with
  | some x => if x = 0 then d else x
  | none => d

/-- Python truthiness projection used by the `to_dict` methods:
`float(v) if v else None`; a stored `0` comes back as `None`. -/
def truthyOpt (v : Option ℚ) : Option ℚ :=
  match v with
  | some x => if x = 0 then none else some x
  | none => none

/-! ## Raw tables (`src/db/models.py`) -/

/-- A row of the `raw_petrol_prices` table.  The `id` and `created_at`
columns are not consulted by any modelled operation and are omitted;
`date` is the unique natural key. -/
structure RawPetrolPrice where
  date : ℕ
  petrol_price : ℚ
  source : String
deriving DecidableEq, Repr

/-- A row of the `raw_exogenous_data` table (crude oil / INR-USD). -/
structure RawExogenousData where
  date : ℕ
  crude_oil_price : Option ℚ
  inr_usd : Option ℚ
  source : String
deriving DecidableEq, Repr

/-! ## Ingestion (`src/scraper/data_ingestion_service.py`) -/

/-- `DataIngestionService.ingest_petrol_price`: check-then-insert
deduplication keyed on `date`.  Returns `(inserted?, new table)`:
if a row for the date exists the call returns `false` and leaves the
table untouched, otherwise it appends one new row and returns `true`. -/
def ingest_petrol_price (db : List RawPetrolPrice) (date : ℕ) (price : ℚ)
    (src : String) : Bool × List RawPetrolPrice :=
  match db.find? (fun r => r.date == date) with
  | some _ => (false, db)
  | none => (true, db ++ [⟨date, price, src⟩])

/-! ## Processed features table (`src/db/models.py`, `ProcessedFeature`) -/

/-- A stored row of the `processed_features` table.  `petrol_price` is a
`NOT NULL` column; the lag/rolling/exogenous/target columns are nullable. -/
structure ProcessedFeature where
  date : ℕ
  petrol_price : ℚ
  lag_1 : Option ℚ
  lag_2 : Option ℚ
  lag_7 : Option ℚ
  lag_14 : Option ℚ
  rolling_7 : Option ℚ
  crude_oil_price : Option ℚ
  inr_usd : Option ℚ
  target : Option ℚ
deriving DecidableEq, Repr

/-- The numeric portion of the dictionary built by
`ProcessedFeature.to_dict` (the `date` and `created_at` strings are not
consulted by the forecaster). -/
structure FeatureDict where
  petrol_price : ℚ
  lag_1 : Option ℚ
  lag_2 : Option ℚ
  lag_7 : Option ℚ
  lag_14 : Option ℚ
  rolling_7 : Option ℚ
  crude_oil_price : Option ℚ
  inr_usd : Option ℚ
  target : Option ℚ
deriving DecidableEq, Repr

/-- `ProcessedFeature.to_dict`: `petrol_price` is converted
unconditionally (`float(self.petrol_price)`); every nullable column goes
through `float(v) if v else None`, i.e. Python truthiness. -/
def ProcessedFeature.to_dict (f : ProcessedFeature) : FeatureDict :=
  { petrol_price := f.petrol_price
    lag_1 := truthyOpt f.lag_1
    lag_2 := truthyOpt f.lag_2
    lag_7 := truthyOpt f.lag_7
    lag_14 := truthyOpt f.lag_14
    rolling_7 := truthyOpt f.rolling_7
    crude_oil_price := truthyOpt f.crude_oil_price
    inr_usd := truthyOpt f.inr_usd
    target := truthyOpt f.target }

/-- Enumeration of the numeric fields of a stored feature row, used to
state claims quantified over "any numeric field". -/
inductive FeatField where
  | petrol | lag1 | lag2 | lag7 | lag14 | roll7 | crude | inr | target
deriving DecidableEq, Repr

/-- The stored (database) value of a numeric field, `petrol_price`
wrapped in `some` since the column is `NOT NULL`. -/
def storedVal (r : ProcessedFeature) : FeatField → Option ℚ
  | .petrol => some r.petrol_price
  | .lag1 => r.lag_1
  | .lag2 => r.lag_2
  | .lag7 => r.lag_7
  | .lag14 => r.lag_14
  | .roll7 => r.rolling_7
  | .crude => r.crude_oil_price
  | .inr => r.inr_usd
  | .target => r.target

/-- The value a numeric field has in the `to_dict` dictionary
(`none` = Python `None`). -/
def dictVal (d : FeatureDict) : FeatField → Option ℚ
  | .petrol => some d.petrol_price
  | .lag1 => d.lag_1
  | .lag2 => d.lag_2
  | .lag7 => d.lag_7
  | .lag14 => d.lag_14
  | .roll7 => d.rolling_7
  | .crude => d.crude_oil_price
  | .inr => d.inr_usd
  | .target => d.target

/-- Overwrite one numeric field of a stored row (`petrol_price` takes the
payload if present, else is left unchanged; only nullable fields are used
in the theorems). -/
def setField (r : ProcessedFeature) (f : FeatField) (v : Option ℚ) :
    ProcessedFeature :=
  match f with
  | .petrol => { r with petrol_price := v.getD r.petrol_price }
  | .lag1 => { r with lag_1 := v }
  | .lag2 => { r with lag_2 := v }
  | .lag7 => { r with lag_7 := v }
  | .lag14 => { r with lag_14 := v }
  | .roll7 => { r with rolling_7 := v }
  | .crude => { r with crude_oil_price := v }
  | .inr => { r with inr_usd := v }
  | .target => { r with target := v }

/-! ## ETL pipeline (`src/ml_pipeline/preprocess.py`) -/

/-- A row of the merged DataFrame produced by
`ETLPipeline.extract_raw_data`: columns `date, petrol_price, source,
crude_oil_price, inr_usd`. -/
structure MergedRow where
  date : ℕ
  petrol_price : ℚ
  source : String
  crude_oil_price : Option ℚ
  inr_usd : Option ℚ
deriving DecidableEq, Repr

instance : Inhabited MergedRow := ⟨⟨0, 0, "", none, none⟩⟩

/-- `ETLPipeline.extract_raw_data`.  Optional date-range filter (applied
only when both bounds are given, as in the Python `if start_date and
end_date`), provenance filter (`yahoo_finance`, `custom_csv`, anything
else — including `combined` — means no filter), then a left join of the
exogenous series onto the price series by date.  The exogenous cells go
through the `RawExogenousData.to_dict` truthiness projection.  Dates are
unique in both tables (database constraint), so the pandas left merge is
a first-match lookup.  An empty price selection yields the empty frame. -/
def extract_raw_data (petrol : List RawPetrolPrice)
    (exo : List RawExogenousData) (start_date end_date : Option ℕ)
    (source_filter : String) : List MergedRow :=
  let pQ : List RawPetrolPrice := match start_date, end_date with
    | some s, some e =>
      petrol.filter (fun r => decide (s ≤ r.date) && decide (r.date ≤ e))
    | _, _ => petrol
  let pQ := if source_filter == "yahoo_finance" then
      pQ.filter (fun r => r.source == "yahoo_finance")
    else if source_filter == "custom_csv" then
      pQ.filter (fun r =>
        r.source == "file_upload" || r.source == "manual" ||
          r.source == "csv_upload")
    else pQ
  let mQ : List RawExogenousData := match start_date, end_date with
    | some s, some e =>
      exo.filter (fun r => decide (s ≤ r.date) && decide (r.date ≤ e))
    | _, _ => exo
  let mQ := if source_filter == "yahoo_finance" then
      mQ.filter (fun r => r.source == "yahoo_finance")
    else if source_filter == "custom_csv" then
      mQ.filter (fun r =>
        r.source == "file_upload" || r.source == "manual" ||
          r.source == "csv_upload")
    else mQ
  if pQ.isEmpty then []
  else if mQ.isEmpty then
    pQ.map (fun r => ⟨r.date, r.petrol_price, r.source, none, none⟩)
  else
    pQ.map (fun r =>
      match mQ.find? (fun m => m.date == r.date) with
      | some m => ⟨r.date, r.petrol_price, r.source,
          truthyOpt m.crude_oil_price, truthyOpt m.inr_usd⟩
      | none => ⟨r.date, r.petrol_price, r.source, none, none⟩)

/-- `ETLPipeline.remove_duplicates`: `drop_duplicates(subset=['date'],
keep='first')`. -/
def remove_duplicates : List MergedRow → List MergedRow :=
  go []
where
  go (seen : List ℕ) : List MergedRow → List MergedRow
    | [] => []
    | r :: rest =>
      if r.date ∈ seen then go seen rest
      else r :: go (r.date :: seen) rest

/-- `ETLPipeline.standardize_dates`: coerce to datetime (a no-op on our
day numbers) and sort ascending by date.  All relevant inputs have
unique dates, so the choice of (stable) sort is immaterial. -/
def standardize_dates (df : List MergedRow) : List MergedRow :=
  df.insertionSort (fun a b => a.date ≤ b.date)

/-- `ETLPipeline.handle_missing_values` with `method='ffill'`: each
column is forward-filled independently and chronologically (the second,
unconditional `fillna(method='ffill')` in the source is idempotent on an
already forward-filled frame).  Only the two exogenous columns can hold
nulls.  A leading gap with no prior value remains null. -/
def handle_missing_values : List MergedRow → List MergedRow :=
  go none none
where
  go (c i : Option ℚ) : List MergedRow → List MergedRow
    | [] => []
    | r :: rest =>
      let c' := match r.crude_oil_price with | some x => some x | none => c
      let i' := match r.inr_usd with | some x => some x | none => i
      ⟨r.date, r.petrol_price, r.source, c', i'⟩ :: go c' i' rest

/-- The pandas linear-interpolation quantile of a list of values
(`Series.quantile(q)`): position `q·(n−1)` in the ascending order, with
linear interpolation between the two neighbouring order statistics. -/
def quantileQ (xs : List ℚ) (q : ℚ) : ℚ :=
  let v := xs.insertionSort (fun a b => a ≤ b)
  let n := v.length
  if n = 0 then 0
  else
    let pos : ℚ := q * (n - 1)
    let f : ℕ := (Int.toNat ⌊pos⌋)
    let g : ℚ := pos - (f : ℚ)
    let a := v.getD f 0
    let b := v.getD (min (f + 1) (n - 1)) 0
    a + g * (b - a)

/-- `ETLPipeline.detect_outliers` with `method='iqr'`: rows whose
`petrol_price` falls outside `[Q1 − 1.5·IQR, Q3 + 1.5·IQR]` are flagged
and, when `remove` is set, dropped. -/
def detect_outliers (df : List MergedRow) (remove : Bool) :
    List MergedRow :=
  let prices := df.map (fun r => r.petrol_price)
  let q1 := quantileQ prices (1/4)
  let q3 := quantileQ prices (3/4)
  let iqr := q3 - q1
  let lower := q1 - 3/2 * iqr
  let upper := q3 + 3/2 * iqr
  if remove then
    df.filter (fun r =>
      !(r.petrol_price < lower || upper < r.petrol_price))
  else df

/-- `ETLPipeline.run_etl`: extract, and on a non-empty extraction
deduplicate, sort, forward-fill, and optionally strip outliers. -/
def run_etl (petrol : List RawPetrolPrice) (exo : List RawExogenousData)
    (start_date end_date : Option ℕ) (remove_outliers : Bool)
    (source_filter : String) : List MergedRow :=
  let df := extract_raw_data petrol exo start_date end_date source_filter
  if df.isEmpty then []
  else
    let df := remove_duplicates df
    let df := standardize_dates df
    let df := handle_missing_values df
    if remove_outliers then detect_outliers df true else df

/-! ## Feature engineering (`src/ml_pipeline/feature_engineering.py`)

`ModelConfig.LAG_FEATURES = [1, 2, 7, 14]`, `ROLLING_WINDOWS = [7]`,
target horizon 1 (`src/config.py`). -/

/-- A row of the feature DataFrame after `create_all_features`: the five
merged columns plus `lag_1, lag_2, lag_7, lag_14, rolling_7, target`. -/
structure FeatRow where
  date : ℕ
  petrol_price : ℚ
  source : String
  crude_oil_price : Option ℚ
  inr_usd : Option ℚ
  lag_1 : Option ℚ
  lag_2 : Option ℚ
  lag_7 : Option ℚ
  lag_14 : Option ℚ
  rolling_7 : Option ℚ
  target : Option ℚ
deriving DecidableEq, Repr

/-- Row `i` of the sorted frame `s` (defaulted out of range; only used
at in-range positions). -/
def rowAt (s : List MergedRow) (i : ℕ) : MergedRow :=
  (s.get? i).getD default

/-- The feature row built at position `i` of the sorted frame:
`shift(k)` gives `NaN` on the first `k` rows, `rolling(7).mean()` gives
`NaN` on the first 6 rows, and `shift(-1)` gives `NaN` on the last row. -/
def mkFeatRow (s : List MergedRow) (i : ℕ) : FeatRow :=
  let r := rowAt s i
  { date := r.date
    petrol_price := r.petrol_price
    source := r.source
    crude_oil_price := r.crude_oil_price
    inr_usd := r.inr_usd
    lag_1 := if 1 ≤ i then some (rowAt s (i - 1)).petrol_price else none
    lag_2 := if 2 ≤ i then some (rowAt s (i - 2)).petrol_price else none
    lag_7 := if 7 ≤ i then some (rowAt s (i - 7)).petrol_price else none
    lag_14 := if 14 ≤ i then some (rowAt s (i - 14)).petrol_price else none
    rolling_7 := if 6 ≤ i then
        some ((((List.range 7).map
          (fun j => (rowAt s (i - 6 + j)).petrol_price)).sum) / 7)
      else none
    target := if i + 1 < s.length then
        some (rowAt s (i + 1)).petrol_price
      else none }

/-- `dropna()` keeps a row exactly when every cell is non-null; the
nullable cells are the two exogenous columns and the six derived ones. -/
def dropnaKeep (fr : FeatRow) : Bool :=
  fr.crude_oil_price.isSome && fr.inr_usd.isSome && fr.lag_1.isSome &&
    fr.lag_2.isSome && fr.lag_7.isSome && fr.lag_14.isSome &&
    fr.rolling_7.isSome && fr.target.isSome

/-- `FeatureEngineer.create_all_features`: sort ascending by date, add
the lag columns, the rolling-7 mean, the one-step-ahead target, then
`dropna()`. -/
def create_all_features (df : List MergedRow) : List FeatRow :=
  let s := df.insertionSort (fun a b => a.date ≤ b.date)
  ((List.range s.length).map (mkFeatRow s)).filter dropnaKeep

/-- Boolean check that the dates of a frame are consecutive (ascending
with no gaps), the precondition named by the feature-trim claim. -/
def datesConsecutive : List MergedRow → Bool
  | [] => true
  | [_] => true
  | a :: b :: rest => b.date == a.date + 1 && datesConsecutive (b :: rest)

/-! ## Model registry (`src/db/models.py` `ModelRegistry`,
`src/ml_pipeline/model_registry.py`) -/

/-- A row of the `model_registry` table.  The metric columns are
nullable `DECIMAL`s; `created_at` orders the rows for `latest`. -/
structure ModelRegistry where
  model_version : String
  model_path : String
  rmse : Option ℚ
  mae : Option ℚ
  mape : Option ℚ
  r2 : Option ℚ
  training_samples : Option ℕ
  data_source : String
  created_at : ℕ
deriving DecidableEq, Repr

/-- The SQL ascending order on a nullable numeric column as both SQLite
(the default backend) scans it: `NULL` sorts before every value. -/
def optLt (a b : Option ℚ) : Bool :=
  match a, b with
  | none, none => false
  | none, some _ => true
  | some _, none => false
  | some x, some y => decide (x < y)

/-- One accumulation step of the ascending scan: keep the earlier row
unless the new row's key is strictly smaller. -/
def minStep (key : ModelRegistry → Option ℚ)
    (acc : Option ModelRegistry) (r : ModelRegistry) :
    Option ModelRegistry :=
  match acc with
  | none => some r
  | some b => if optLt (key r) (key b) then some r else acc

/-- `order_by(col.asc()).first()`: the first row attaining the minimal
key (tie order among equal keys is not observable through the claims). -/
def minByKey (key : ModelRegistry → Option ℚ) (l : List ModelRegistry) :
    Option ModelRegistry :=
  l.foldl (minStep key) none

/-- `order_by(created_at.desc()).first()`: the first row attaining the
maximal creation time. -/
def latestModel (l : List ModelRegistry) : Option ModelRegistry :=
  l.foldl (fun acc r =>
    match acc with
    | none => some r
    | some b => if b.created_at < r.created_at then some r else acc) none

/-- `ModelRegistryManager.get_best_model`: dispatch on the metric name;
an unknown name logs `Invalid metric: ...` and returns no model.  The
second component models the `logger.error` messages the call emits. -/
def get_best_model (reg : List ModelRegistry) (metric : String) :
    Option ModelRegistry × List String :=
  if metric == "rmse" then (minByKey (fun r => r.rmse) reg, [])
  else if metric == "mae" then (minByKey (fun r => r.mae) reg, [])
  else if metric == "mape" then (minByKey (fun r => r.mape) reg, [])
  else (none, ["Invalid metric: " ++ metric])

/-! ## Forecast engine (`src/ml_pipeline/predict.py`) -/

/-- The metrics snapshot returned with the loaded model. -/
structure Metrics where
  rmse : Option ℚ
  mae : Option ℚ
  mape : Option ℚ
deriving DecidableEq, Repr

/-- The record resolution step of `load_model_and_scaler`: an explicit
version is looked up by `filter_by(model_version=...)`, otherwise the
registry row with the latest creation time is used. -/
def resolveModelRecord (reg : List ModelRegistry)
    (model_version : Option String) : Option ModelRegistry :=
  match model_version with
  | some v => reg.find? (fun r => r.model_version == v)
  | none => latestModel reg

/-- Replacement of every non-overlapping occurrence of `pat`, scanning
left to right, on character lists (the semantics of Python's
`str.replace` for a non-empty pattern).  The fuel argument is the length
of the scanned list, so it never runs out. -/
def replaceChars : ℕ → List Char → List Char → List Char → List Char
  | 0, s, _, _ => s
  | _ + 1, [], _, _ => []
  | n + 1, c :: rest, pat, rep =>
    if pat ≠ [] && pat.isPrefixOf (c :: rest) then
      rep ++ replaceChars n ((c :: rest).drop pat.length) pat rep
    else c :: replaceChars n rest pat rep

/-- The scaler sidecar path: `model_path.replace('.h5', '_scaler.pkl')`
(`str.replace` replaces every occurrence of the pattern). -/
def scalerPathOf (model_path : String) : String :=
  ⟨replaceChars model_path.data.length model_path.data
    ".h5".data "_scaler.pkl".data⟩

/-- `load_model_and_scaler`.  The filesystem is the list of existing
file paths; `keras.models.load_model` and `pickle.load(open(...))` raise
when their file is absent, and the enclosing `try/except` turns every
failure — record missing, artifact missing, or scaler sidecar missing —
into the same all-`None` return, modelled as `none`.  On success it
returns the model path (the key used to run inference), the resolved
version and the stored metrics snapshot. -/
def load_model_and_scaler (reg : List ModelRegistry) (files : List String)
    (model_version : Option String) : Option (String × String × Metrics) :=
  match resolveModelRecord reg model_version with
  | none => none
  | some r =>
    if files.contains r.model_path &&
        files.contains (scalerPathOf r.model_path) then
      some (r.model_path, r.model_version, ⟨r.rmse, r.mae, r.mape⟩)
    else none

/-- `get_latest_features`: the feature row with the most recent date
(dates are the primary key, hence unique), read back through
`to_dict`. -/
def get_latest_features (store : List ProcessedFeature) :
    Option FeatureDict :=
  (store.foldl (fun acc r =>
    match acc with
    | none => some r
    | some b => if b.date < r.date then some r else acc) none).map
    ProcessedFeature.to_dict

/-- The mutable `current_features` dictionary of the recursive loop. -/
structure ForecastState where
  petrol_price : ℚ
  lag_1 : ℚ
  lag_2 : ℚ
  lag_7 : ℚ
  lag_14 : ℚ
  rolling_7 : ℚ
  crude_oil_price : ℚ
  inr_usd : ℚ
deriving DecidableEq, Repr

/-- Seeding of `current_features` from the latest feature dictionary:
every lag/rolling cell falls back to the current price under Python
truthiness, the exogenous cells fall back to the fixed defaults
`80.0` (crude oil) and `83.0` (INR-USD). -/
def seedFeatures (latest : FeatureDict) : ForecastState :=
  { petrol_price := latest.petrol_price
    lag_1 := truthyOrQ latest.lag_1 latest.petrol_price
    lag_2 := truthyOrQ latest.lag_2 latest.petrol_price
    lag_7 := truthyOrQ latest.lag_7 latest.petrol_price
    lag_14 := truthyOrQ latest.lag_14 latest.petrol_price
    rolling_7 := truthyOrQ latest.rolling_7 latest.petrol_price
    crude_oil_price := truthyOrQ latest.crude_oil_price 80
    inr_usd := truthyOrQ latest.inr_usd 83 }

/-- The clamp applied to every raw model output:
`max(90.0, min(150.0, pred))`. -/
def clampPred (raw : ℚ) : ℚ :=
  max 90 (min 150 raw)

/-- `round(x, 2)`: rounding to two decimals.  Python rounds floats to
the nearest representable with ties to even; exact ties are immaterial
to the claims, so nearest-with-half-up on `ℚ` stands in. -/
def round2 (x : ℚ) : ℚ :=
  ((⌊x * 100 + 1/2⌋ : ℤ) : ℚ) / 100

/-- One state roll of the recursive loop, after the clamped prediction
`pred` has been recorded: shift the lags, install the prediction as the
current price, and update `rolling_7` by
`(rolling_7 * 6 + pred) / 7`. -/
def rollState (st : ForecastState) (pred : ℚ) : ForecastState :=
  { lag_14 := st.lag_7
    lag_7 := st.lag_2
    lag_2 := st.lag_1
    lag_1 := st.petrol_price
    petrol_price := pred
    rolling_7 := (st.rolling_7 * 6 + pred) / 7
    crude_oil_price := st.crude_oil_price
    inr_usd := st.inr_usd }

/-- One emitted prediction: `{'date': ..., 'predicted_price': ...}`. -/
structure Prediction where
  date : ℤ
  predicted_price : ℚ
deriving DecidableEq, Repr

/-- The `for day in range(horizon_days)` loop: predict on the current
state, clamp, record the rounded value for the current date, roll the
state and advance to the next day. -/
def forecastLoop (infer : ForecastState → ℚ) :
    ℕ → ForecastState → ℤ → List Prediction
  | 0, _, _ => []
  | n + 1, st, d =>
    let pred := clampPred (infer st)
    ⟨d, round2 pred⟩ :: forecastLoop infer n (rollState st pred) (d + 1)

/-- The outcome of `generate_forecast`: either
`{'success': False, 'error': ...}` or the success payload. -/
inductive ForecastResult where
  | failure (error : String)
  | success (model_version : String) (horizon_days : ℤ)
      (predictions : List Prediction) (metrics : Metrics)
deriving DecidableEq, Repr

/-- `generate_forecast(horizon_days, model_version, end_date)`.

`infer path` is the composite `model.predict ∘ scaler.transform` of the
artifact stored at `path`; `now` is the current wall-clock date (already
truncated to midnight), so forecasting starts at `now + 1`.  `end_date`
is modelled as an already-parsed day number; the `Invalid end date
format` branch concerns string parsing only and is outside the
embedding.  When `end_date` is given the horizon is recomputed as
`(end_date − tomorrow) + 1` and a non-positive value is the
invalid-date-range failure; otherwise `range(horizon_days)` of a
non-positive horizon is simply empty. -/
def generate_forecast (infer : String → ForecastState → ℚ)
    (reg : List ModelRegistry) (files : List String)
    (store : List ProcessedFeature) (now : ℤ) (horizon_days : ℤ)
    (model_version : Option String) (end_date : Option ℤ) :
    ForecastResult :=
  match load_model_and_scaler reg files model_version with
  | none => .failure "No trained model available"
  | some (path, version, metrics) =>
    match get_latest_features store with
    | none => .failure "No feature data available"
    | some latest =>
      let st := seedFeatures latest
      let start := now + 1
      match end_date with
      | some e =>
        let h := (e - start) + 1
        if h ≤ 0 then .failure "End date must be after latest data date"
        else .success version h (forecastLoop (infer path) h.toNat st start)
          metrics
      | none =>
        .success version horizon_days
          (forecastLoop (infer path) horizon_days.toNat st start) metrics

/-! ## Prediction service
(`src/backend/services/prediction_service.py`) -/

/-- A row of the `prediction_logs` table (request time omitted; it is
server-generated and not consulted). -/
structure PredictionLog where
  horizon_days : ℤ
  model_version : String
  predictions : List Prediction
deriving DecidableEq, Repr

/-- `PredictionService.log_prediction`: append one write-once log row. -/
def log_prediction (log : List PredictionLog) (horizon_days : ℤ)
    (model_version : String) (predictions : List Prediction) :
    List PredictionLog :=
  log ++ [⟨horizon_days, model_version, predictions⟩]

/-- `PredictionService.generate_prediction`: run the forecast; on a
non-success result return it unchanged without touching the log, on
success log the requested (original) horizon, the version used and the
predictions. -/
def generate_prediction (infer : String → ForecastState → ℚ)
    (reg : List ModelRegistry) (files : List String)
    (store : List ProcessedFeature) (now : ℤ) (horizon_days : ℤ)
    (model_version : Option String) (end_date : Option ℤ)
    (log : List PredictionLog) : ForecastResult × List PredictionLog :=
  let r := generate_forecast infer reg files store now horizon_days
    model_version end_date
  match r with
  | .success v _ ps _ => (r, log_prediction log horizon_days v ps)
  | .failure _ => (r, log)

/-! ## Helper lemmas -/

lemma rowAt_mem (s : List MergedRow) (i : ℕ) (hi : i < s.length) :
    rowAt s i ∈ s := by
  rw [rowAt, List.get?_eq_get hi, Option.getD_some]
  exact List.get_mem s i hi

lemma countP_range_le_lt (a b : ℕ) :
    ∀ L, (List.range L).countP (fun i => decide (a ≤ i) && decide (i < b))
      = min b L - a := by
  intro L
  induction L with
  | zero => simp
  | succ n ih =>
    rw [List.range_succ, List.countP_append, ih]
    by_cases hb : n < b
    · by_cases ha : a ≤ n
      · simp [List.countP_cons, ha, hb]
        omega
      · simp [List.countP_cons, ha]
        omega
    · simp [List.countP_cons, hb]
      omega

lemma dropnaKeep_mkFeatRow (s : List MergedRow)
    (hexo : ∀ r ∈ s, r.crude_oil_price.isSome ∧ r.inr_usd.isSome)
    (i : ℕ) (hi : i < s.length) :
    (dropnaKeep (mkFeatRow s i) = true ↔ 14 ≤ i ∧ i + 1 < s.length) := by
  obtain ⟨hc, hn⟩ := hexo _ (rowAt_mem s i hi)
  simp only [dropnaKeep, mkFeatRow, Bool.and_eq_true, Option.isSome_ite,
    decide_eq_true_eq, hc, hn, true_and]
  omega

lemma create_all_features_length (rows : List MergedRow)
    (hexo : ∀ r ∈ rows, r.crude_oil_price.isSome ∧ r.inr_usd.isSome) :
    (create_all_features rows).length = rows.length - 15 := by
  unfold create_all_features
  set s := rows.insertionSort (fun a b => a.date ≤ b.date) with hs
  have hlen : s.length = rows.length := List.length_insertionSort _ rows
  have hexo' : ∀ r ∈ s, r.crude_oil_price.isSome ∧ r.inr_usd.isSome :=
    fun x hx => hexo x ((List.mem_insertionSort _).mp hx)
  rw [← List.countP_eq_length_filter, List.countP_map]
  have hcongr : ∀ i ∈ List.range s.length,
      (dropnaKeep ∘ mkFeatRow s) i = true ↔
        (decide (14 ≤ i) && decide (i < s.length - 1)) = true := by
    intro i hmem
    have hi := List.mem_range.mp hmem
    rw [Function.comp_apply, dropnaKeep_mkFeatRow s hexo' i hi]
    simp only [Bool.and_eq_true, decide_eq_true_eq]
    omega
  rw [List.countP_congr hcongr, countP_range_le_lt]
  omega

/-! ## Concrete data for the scenarios -/

/-- Twenty consecutive daily price points with no exogenous data: the
raw-price table of the C1 scenario. -/
def petrol20 : List RawPetrolPrice :=
  (List.range 20).map (fun i => ⟨i, 100, "web_scraper"⟩)

/-- Twenty consecutive merged rows whose exogenous cells are all
populated. -/
def rows20exo : List MergedRow :=
  (List.range 20).map (fun i => ⟨i, 100, "web_scraper", some 75, some 83⟩)

/-! ## C1: feature trim law -/

/-- C1 (counterexample).  Ingesting 20 consecutive daily price points
with no exogenous data, running ETL with the unfiltered provenance mode
and then feature engineering does NOT yield 5 feature rows: the merged
frame's exogenous columns are entirely null, the forward fill has
nothing to fill them with, and `dropna()` therefore removes every row,
so the scenario yields 0 rows. -/
theorem scenario20_not_five_rows :
    (create_all_features
      (run_etl petrol20 [] none none false "combined")).length ≠ 5 := by
  decide

/-- C1 (amended).  For every price series sorted ascending by date with
no gaps whose rows all carry non-null exogenous values, feature
engineering returns exactly `max(0, L − 15)` rows (`ℕ`-subtraction is
truncated), each with non-null `lag_14` and non-null `target`; the
20-point no-exogenous scenario instead yields 0 feature rows, because
the all-null exogenous columns make `dropna()` remove every row. -/
theorem feature_trim_amended :
    (∀ rows : List MergedRow, datesConsecutive rows = true →
      (∀ r ∈ rows, r.crude_oil_price.isSome ∧ r.inr_usd.isSome) →
      (create_all_features rows).length = rows.length - 15 ∧
        ∀ fr ∈ create_all_features rows,
          fr.lag_14.isSome ∧ fr.target.isSome) ∧
    (create_all_features
      (run_etl petrol20 [] none none false "combined")).length = 0 := by
  constructor
  · intro rows _ hexo
    refine ⟨create_all_features_length rows hexo, ?_⟩
    intro fr hfr
    simp only [create_all_features] at hfr
    have hkeep := (List.mem_filter.mp hfr).2
    simp only [dropnaKeep, Bool.and_eq_true] at hkeep
    exact ⟨by tauto, by tauto⟩
  · decide

/-- C1 (witness): the amended trim law applied to 20 consecutive rows
with populated exogenous cells gives `20 − 15 = 5` rows. -/
theorem feature_trim_amended_witness :
    (create_all_features rows20exo).length = rows20exo.length - 15 ∧
      ∀ fr ∈ create_all_features rows20exo,
        fr.lag_14.isSome ∧ fr.target.isSome :=
  feature_trim_amended.1 rows20exo (by decide) (by decide)

/-! ## C5: recursive-step state roll -/

/-- C5.  Each step of the recursive forecasting loop, at any position of
any horizon: the loop emits the rounded clamped prediction for the
current date and recurses on the rolled state and the next day; the
rolled state satisfies `lag_14' = lag_7`, `lag_7' = lag_2`,
`lag_2' = lag_1`, `lag_1' = price`, `price' = clamped_prediction` and
`rolling_7' = (rolling_7 × 6 + clamped_prediction) / 7`, and the date
passed to the next step is `d + 1`. -/
theorem forecast_step_state_roll (infer : ForecastState → ℚ) (n : ℕ)
    (st : ForecastState) (d : ℤ) :
    forecastLoop infer (n + 1) st d =
      ⟨d, round2 (clampPred (infer st))⟩ ::
        forecastLoop infer n (rollState st (clampPred (infer st))) (d + 1) ∧
    (rollState st (clampPred (infer st))).lag_14 = st.lag_7 ∧
    (rollState st (clampPred (infer st))).lag_7 = st.lag_2 ∧
    (rollState st (clampPred (infer st))).lag_2 = st.lag_1 ∧
    (rollState st (clampPred (infer st))).lag_1 = st.petrol_price ∧
    (rollState st (clampPred (infer st))).petrol_price =
      clampPred (infer st) ∧
    (rollState st (clampPred (infer st))).rolling_7 =
      (st.rolling_7 * 6 + clampPred (infer st)) / 7 :=
  ⟨rfl, rfl, rfl, rfl, rfl, rfl, rfl⟩

/-! ## C6: idempotent ingestion -/

/-- C6.  For any date not yet present, ingesting a price point for it
twice returns `inserted = true` then `inserted = false`, the second call
leaves the table exactly as the first left it (no insert, no update),
and the table after the calls holds exactly one row for that date. -/
theorem ingest_idempotent (db : List RawPetrolPrice) (d : ℕ) (p₁ p₂ : ℚ)
    (s₁ s₂ : String)
    (habs : db.find? (fun r => r.date == d) = none) :
    (ingest_petrol_price db d p₁ s₁).1 = true ∧
    (ingest_petrol_price (ingest_petrol_price db d p₁ s₁).2 d p₂ s₂).1 =
      false ∧
    (ingest_petrol_price (ingest_petrol_price db d p₁ s₁).2 d p₂ s₂).2 =
      (ingest_petrol_price db d p₁ s₁).2 ∧
    ((ingest_petrol_price db d p₁ s₁).2.filter
      (fun r => r.date == d)).length = 1 := by
  have h1 : ingest_petrol_price db d p₁ s₁ = (true, db ++ [⟨d, p₁, s₁⟩]) := by
    unfold ingest_petrol_price
    rw [habs]
  have hfind : (db ++ [(⟨d, p₁, s₁⟩ : RawPetrolPrice)]).find?
      (fun r => r.date == d) = some ⟨d, p₁, s₁⟩ := by
    rw [List.find?_append, habs]
    simp [List.find?]
  have h2 : ingest_petrol_price (db ++ [⟨d, p₁, s₁⟩]) d p₂ s₂ =
      (false, db ++ [⟨d, p₁, s₁⟩]) := by
    unfold ingest_petrol_price
    rw [hfind]
  have hnil : db.filter (fun r => r.date == d) = [] :=
    List.filter_eq_nil_iff.mpr (List.find?_eq_none.mp habs)
  rw [h1, h2]
  refine ⟨rfl, rfl, rfl, ?_⟩
  rw [List.filter_append, hnil]
  simp [List.filter]

/-- C6 (witness): both ingestions on the empty table. -/
theorem ingest_idempotent_witness :
    (ingest_petrol_price [] 0 100 "web_scraper").1 = true ∧
    (ingest_petrol_price (ingest_petrol_price [] 0 100 "web_scraper").2 0
      100 "csv_upload").1 = false ∧
    (ingest_petrol_price (ingest_petrol_price [] 0 100 "web_scraper").2 0
      100 "csv_upload").2 =
      (ingest_petrol_price [] 0 100 "web_scraper").2 ∧
    ((ingest_petrol_price [] 0 100 "web_scraper").2.filter
      (fun r => r.date == 0)).length = 1 :=
  ingest_idempotent [] 0 100 100 "web_scraper" "csv_upload" rfl

/-! ## C10: zero-valued cells at the read-back/forecast interface -/

/-- A stored feature row whose `NOT NULL` price column is exactly 0 and
whose nullable columns are all populated. -/
def featZeroPrice : ProcessedFeature :=
  ⟨0, 0, some 1, some 1, some 1, some 1, some 1, some 1, some 1, some 1⟩

/-- A stored feature row whose `lag_1` cell is exactly 0. -/
def featZeroLag : ProcessedFeature :=
  ⟨0, 100, some 0, some 1, some 1, some 1, some 1, some 1, some 1, some 1⟩

/-- C10 (counterexample).  Not every numeric field equal to 0 reads back
as null: `petrol_price` is converted unconditionally by `to_dict`, so a
stored 0 in that column reads back as the number `0.0`, not `None`. -/
theorem petrol_price_zero_not_null :
    storedVal featZeroPrice FeatField.petrol = some 0 ∧
      dictVal featZeroPrice.to_dict FeatField.petrol = some 0 ∧
      dictVal featZeroPrice.to_dict FeatField.petrol ≠ none := by
  decide

/-- C10 (amended).  Every *nullable* numeric field (the lags, the
rolling mean, the exogenous cells and the target — everything except the
`NOT NULL` `petrol_price` column) whose stored value is exactly 0 reads
back as null, a stored 0 in such a field is indistinguishable from a
stored null throughout the `to_dict` dictionary, and forecast seeding
substitutes the current price for a falsy lag/rolling cell and the fixed
defaults 80.0 / 83.0 for falsy exogenous cells. -/
theorem zero_null_indistinguishable :
    (∀ (r : ProcessedFeature) (f : FeatField), f ≠ FeatField.petrol →
      storedVal r f = some 0 → dictVal r.to_dict f = none) ∧
    (∀ (r : ProcessedFeature) (f : FeatField), f ≠ FeatField.petrol →
      (setField r f (some 0)).to_dict = (setField r f none).to_dict) ∧
    (∀ d : FeatureDict, d.lag_1 = some 0 →
      (seedFeatures d).lag_1 = d.petrol_price) ∧
    (∀ d : FeatureDict, d.lag_2 = some 0 →
      (seedFeatures d).lag_2 = d.petrol_price) ∧
    (∀ d : FeatureDict, d.lag_7 = some 0 →
      (seedFeatures d).lag_7 = d.petrol_price) ∧
    (∀ d : FeatureDict, d.lag_14 = some 0 →
      (seedFeatures d).lag_14 = d.petrol_price) ∧
    (∀ d : FeatureDict, d.rolling_7 = some 0 →
      (seedFeatures d).rolling_7 = d.petrol_price) ∧
    (∀ d : FeatureDict, d.crude_oil_price = some 0 →
      (seedFeatures d).crude_oil_price = 80) ∧
    (∀ d : FeatureDict, d.inr_usd = some 0 →
      (seedFeatures d).inr_usd = 83) := by
  refine ⟨?_, ?_, ?_, ?_, ?_, ?_, ?_, ?_, ?_⟩
  · intro r f hf h
    cases f <;>
      simp_all [storedVal, dictVal, ProcessedFeature.to_dict, truthyOpt]
  · intro r f hf
    cases f <;>
      simp_all [setField, ProcessedFeature.to_dict, truthyOpt]
  all_goals intro d h
  all_goals simp [seedFeatures, truthyOrQ, h]

/-- C10 (witness): a stored `lag_1 = 0` reads back as null. -/
theorem zero_null_indistinguishable_witness :
    dictVal featZeroLag.to_dict FeatField.lag1 = none :=
  zero_null_indistinguishable.1 featZeroLag FeatField.lag1 (by decide)
    (by decide)

/-! ## Forecast helper lemmas and concrete fixtures -/

lemma clampPred_bounds (raw : ℚ) :
    90 ≤ clampPred raw ∧ clampPred raw ≤ 150 :=
  ⟨le_max_left _ _, max_le (by norm_num) (min_le_left _ _)⟩

lemma round2_bounds {x : ℚ} (h1 : 90 ≤ x) (h2 : x ≤ 150) :
    90 ≤ round2 x ∧ round2 x ≤ 150 := by
  have hlo : (9000 : ℤ) ≤ ⌊x * 100 + 1/2⌋ := by
    apply Int.le_floor.mpr
    push_cast
    linarith
  have hhi : ⌊x * 100 + 1/2⌋ < 15001 := by
    apply Int.floor_lt.mpr
    push_cast
    linarith
  have hlo' : (9000 : ℚ) ≤ ((⌊x * 100 + 1/2⌋ : ℤ) : ℚ) := by
    exact_mod_cast hlo
  have hhi' : ((⌊x * 100 + 1/2⌋ : ℤ) : ℚ) ≤ 15000 := by
    exact_mod_cast (by omega : ⌊x * 100 + 1/2⌋ ≤ 15000)
  rw [round2]
  constructor <;> linarith

lemma forecastLoop_bounds (g : ForecastState → ℚ) :
    ∀ (n : ℕ) (st : ForecastState) (d : ℤ),
      ∀ p ∈ forecastLoop g n st d,
        90 ≤ p.predicted_price ∧ p.predicted_price ≤ 150 := by
  intro n
  induction n with
  | zero =>
    intro st d p hp
    simp [forecastLoop] at hp
  | succ k ih =>
    intro st d p hp
    simp only [forecastLoop] at hp
    rcases List.mem_cons.mp hp with h | h
    · subst h
      exact round2_bounds (clampPred_bounds _).1 (clampPred_bounds _).2
    · exact ih _ _ p h

lemma clampPred_100 : clampPred 100 = 100 := by
  rw [clampPred, min_eq_right (by norm_num : (100:ℚ) ≤ 150),
    max_eq_right (by norm_num : (90:ℚ) ≤ 100)]

lemma round2_100 : round2 100 = 100 := by
  rw [round2]
  norm_num

/-- The single registry record of the concrete scenarios. -/
def rec1 : ModelRegistry :=
  ⟨"v1", "model_v1.h5", some 1, some 1, some 1, some 1, some 100,
    "combined", 5⟩

/-- A registry holding exactly `rec1`. -/
def reg1 : List ModelRegistry := [rec1]

/-- A filesystem holding the artifact and its scaler sidecar. -/
def files1 : List String := ["model_v1.h5", "model_v1_scaler.pkl"]

/-- The seed feature row of the concrete scenarios (all cells
populated and non-zero). -/
def feat1 : ProcessedFeature :=
  ⟨40, 100, some 99, some 98, some 97, some 96, some 99, some 75,
    some 83, some 101⟩

lemma load1 : load_model_and_scaler reg1 files1 none =
    some ("model_v1.h5", "v1", ⟨some 1, some 1, some 1⟩) := by
  decide

lemma feat1_latest : get_latest_features [feat1] = some feat1.to_dict := by
  decide

/-- The concrete forecast run: `now = 0`, so tomorrow is day 1; an
`end_date` of day 1 produces one successful prediction for day 1. -/
lemma gf_example_success :
    generate_forecast (fun _ _ => 100) reg1 files1 [feat1] 0 7 none
      (some 1) = .success "v1" 1 [⟨1, 100⟩] ⟨some 1, some 1, some 1⟩ := by
  simp only [generate_forecast, load1, feat1_latest]
  norm_num
  simp [forecastLoop, clampPred_100, round2_100]

/-! ## C2: end_date at or before tomorrow -/

/-- C2 (counterexample).  With the current date at day 0, tomorrow is
day 1; supplying `end_date` equal to tomorrow does NOT fail with the
invalid-date-range error — the computed horizon is `(1 − 1) + 1 = 1` and
the forecast succeeds, emitting one prediction dated tomorrow. -/
theorem end_date_tomorrow_succeeds :
    generate_forecast (fun _ _ => 100) reg1 files1 [feat1] 0 7 none
      (some 1) = .success "v1" 1 [⟨1, 100⟩] ⟨some 1, some 1, some 1⟩ :=
  gf_example_success

/-- C2 (amended).  For every supplied `end_date` at or before the
*current* date (equivalently, strictly before tomorrow), a forecast with
a loadable model and a seed feature row fails with the
invalid-date-range error and emits no predictions. -/
theorem end_date_at_or_before_today_fails
    (infer : String → ForecastState → ℚ) (reg : List ModelRegistry)
    (files : List String) (store : List ProcessedFeature)
    (now horizon_days : ℤ) (mv : Option String) (path v : String)
    (m : Metrics) (d : FeatureDict) (e : ℤ)
    (hload : load_model_and_scaler reg files mv = some (path, v, m))
    (hfeat : get_latest_features store = some d)
    (he : e ≤ now) :
    generate_forecast infer reg files store now horizon_days mv (some e)
      = .failure "End date must be after latest data date" := by
  simp only [generate_forecast, hload, hfeat]
  have hneg : e - (now + 1) + 1 ≤ 0 := by omega
  rw [if_pos hneg]

/-- C2 (witness): `end_date` = the current day 0 fails. -/
theorem end_date_at_or_before_today_fails_witness :
    generate_forecast (fun _ _ => 100) reg1 files1 [feat1] 0 7 none
      (some 0) = .failure "End date must be after latest data date" :=
  end_date_at_or_before_today_fails _ reg1 files1 [feat1] 0 7 none
    "model_v1.h5" "v1" ⟨some 1, some 1, some 1⟩ feat1.to_dict 0 load1
    feat1_latest (by decide)

/-! ## C3: forecast horizon law -/

/-- C3.  With a loadable model and a seed feature row: `end_date` equal
to tomorrow (`now + 1`) yields exactly one prediction, dated tomorrow;
`end_date` equal to the current date fails with the invalid-date-range
error. -/
theorem forecast_horizon_law (infer : String → ForecastState → ℚ)
    (reg : List ModelRegistry) (files : List String)
    (store : List ProcessedFeature) (now horizon_days : ℤ)
    (mv : Option String) (path v : String) (m : Metrics) (d : FeatureDict)
    (hload : load_model_and_scaler reg files mv = some (path, v, m))
    (hfeat : get_latest_features store = some d) :
    generate_forecast infer reg files store now horizon_days mv
        (some (now + 1)) =
      .success v 1
        [⟨now + 1, round2 (clampPred (infer path (seedFeatures d)))⟩] m ∧
    generate_forecast infer reg files store now horizon_days mv (some now)
      = .failure "End date must be after latest data date" := by
  constructor
  · simp only [generate_forecast, hload, hfeat]
    have h1 : now + 1 - (now + 1) + 1 = (1 : ℤ) := by ring
    rw [h1]
    norm_num
    simp [forecastLoop]
  · simp only [generate_forecast, hload, hfeat]
    have h0 : now - (now + 1) + 1 ≤ (0 : ℤ) := by omega
    rw [if_pos h0]

/-- C3 (witness): the horizon law at the concrete fixture, `now = 0`. -/
theorem forecast_horizon_law_witness :
    generate_forecast (fun _ _ => 100) reg1 files1 [feat1] 0 7 none
        (some (0 + 1)) =
      .success "v1" 1 [⟨0 + 1, round2 (clampPred 100)⟩]
        ⟨some 1, some 1, some 1⟩ ∧
    generate_forecast (fun _ _ => 100) reg1 files1 [feat1] 0 7 none
      (some 0) = .failure "End date must be after latest data date" :=
  forecast_horizon_law _ reg1 files1 [feat1] 0 7 none "model_v1.h5" "v1"
    ⟨some 1, some 1, some 1⟩ feat1.to_dict load1 feat1_latest

/-! ## C4: clamp band -/

/-- C4.  Whatever the model outputs at any recursive step of any
horizon, every prediction emitted by a successful forecast has its
`predicted_price` inside the configured band `[90.0, 150.0]`. -/
theorem forecast_clamp_band (infer : String → ForecastState → ℚ)
    (reg : List ModelRegistry) (files : List String)
    (store : List ProcessedFeature) (now horizon_days : ℤ)
    (mv : Option String) (ed : Option ℤ) (v : String) (h : ℤ)
    (ps : List Prediction) (m : Metrics)
    (hsucc : generate_forecast infer reg files store now horizon_days mv
      ed = .success v h ps m) :
    ∀ p ∈ ps, 90 ≤ p.predicted_price ∧ p.predicted_price ≤ 150 := by
  unfold generate_forecast at hsucc
  split at hsucc
  · exact absurd hsucc (by simp)
  · split at hsucc
    · exact absurd hsucc (by simp)
    · split at hsucc
      · dsimp only at hsucc
        split at hsucc
        · exact absurd hsucc (by simp)
        · rw [ForecastResult.success.injEq] at hsucc
          obtain ⟨-, -, hps, -⟩ := hsucc
          subst hps
          exact forecastLoop_bounds _ _ _ _
      · dsimp only at hsucc
        rw [ForecastResult.success.injEq] at hsucc
        obtain ⟨-, -, hps, -⟩ := hsucc
        subst hps
        exact forecastLoop_bounds _ _ _ _

/-- C4 (witness): the clamp band at the concrete one-step forecast. -/
theorem forecast_clamp_band_witness :
    90 ≤ (Prediction.mk 1 100).predicted_price ∧
      (Prediction.mk 1 100).predicted_price ≤ 150 :=
  forecast_clamp_band (fun _ _ => 100) reg1 files1 [feat1] 0 7 none
    (some 1) "v1" 1 [⟨1, 100⟩] ⟨some 1, some 1, some 1⟩
    gf_example_success ⟨1, 100⟩ (by decide)

/-! ## C7: missing scaler sidecar -/

/-- C7 (counterexample).  With a registered version whose artifact file
exists but whose scaler sidecar is absent, the forecast fails with the
very same `No trained model available` error the empty registry
produces: the code does not raise a distinct configuration error. -/
theorem missing_scaler_same_error_as_no_model :
    generate_forecast (fun _ _ => 100) reg1 ["model_v1.h5"] [feat1] 0 7
      none none = .failure "No trained model available" ∧
    generate_forecast (fun _ _ => 100) [] ["model_v1.h5"] [feat1] 0 7
      none none = .failure "No trained model available" := by
  decide

/-- C7 (amended).  If the requested (or latest) version resolves to a
registry record whose artifact file is present but whose scaler sidecar
is missing, the forecast fails — but with the generic
`No trained model available` error (the `try/except` swallows the load
failure), not with a distinct configuration error — and emits no
predictions. -/
theorem missing_scaler_fails_generic (infer : String → ForecastState → ℚ)
    (reg : List ModelRegistry) (files : List String)
    (store : List ProcessedFeature) (now horizon_days : ℤ)
    (mv : Option String) (ed : Option ℤ) (r : ModelRegistry)
    (hres : resolveModelRecord reg mv = some r)
    (hart : files.contains r.model_path = true)
    (hsc : files.contains (scalerPathOf r.model_path) = false) :
    generate_forecast infer reg files store now horizon_days mv ed
      = .failure "No trained model available" := by
  have hload : load_model_and_scaler reg files mv = none := by
    simp only [load_model_and_scaler, hres]
    rw [hart, hsc]
    simp
  simp [generate_forecast, hload]

/-- C7 (witness): the amended statement at the concrete fixture. -/
theorem missing_scaler_fails_generic_witness :
    generate_forecast (fun _ _ => 100) reg1 ["model_v1.h5"] [feat1] 0 7
      none none = .failure "No trained model available" :=
  missing_scaler_fails_generic _ reg1 ["model_v1.h5"] [feat1] 0 7 none
    none rec1 (by decide) (by decide) (by decide)

/-! ## C9: empty registry writes no log -/

/-- C9.  With an empty model registry, a forecast for the latest (or any
requested) version fails with the model-not-found result
`No trained model available`, and the prediction log is returned
unchanged: no `PredictionLog` row is written. -/
theorem empty_registry_forecast_fails_no_log
    (infer : String → ForecastState → ℚ) (files : List String)
    (store : List ProcessedFeature) (now horizon_days : ℤ)
    (mv : Option String) (ed : Option ℤ) (log : List PredictionLog) :
    generate_prediction infer [] files store now horizon_days mv ed log
      = (.failure "No trained model available", log) := by
  cases mv <;> rfl

/-! ## C8: best-model selection -/

lemma optLt_irrefl (a : Option ℚ) : optLt a a = false := by
  cases a <;> simp [optLt]

lemma optLt_trans {a b c : Option ℚ} (h1 : optLt a b = true)
    (h2 : optLt b c = true) : optLt a c = true := by
  cases a <;> cases b <;> cases c <;> simp_all [optLt]
  all_goals linarith

lemma optLt_le_lt_trans {a b c : Option ℚ} (h1 : optLt a b = false)
    (h2 : optLt a c = true) : optLt b c = true := by
  cases a <;> cases b <;> cases c <;> simp_all [optLt]
  all_goals linarith

lemma minByKey_go (key : ModelRegistry → Option ℚ) :
    ∀ (l : List ModelRegistry) (b : ModelRegistry),
      ∃ r, l.foldl (minStep key) (some b) = some r ∧
        (r = b ∨ r ∈ l) ∧
        ∀ s, (s = b ∨ s ∈ l) → optLt (key s) (key r) = false := by
  intro l
  induction l with
  | nil =>
    intro b
    refine ⟨b, rfl, Or.inl rfl, ?_⟩
    rintro s (rfl | hs)
    · exact optLt_irrefl _
    · cases hs
  | cons a t ih =>
    intro b
    by_cases hab : optLt (key a) (key b) = true
    · obtain ⟨r, hr, hmem, hmin⟩ := ih a
      have hstep : minStep key (some b) a = some a := by
        simp [minStep, hab]
      refine ⟨r, ?_, ?_, ?_⟩
      · rw [List.foldl_cons, hstep]
        exact hr
      · rcases hmem with rfl | h
        · exact Or.inr (List.mem_cons_self _ _)
        · exact Or.inr (List.mem_cons_of_mem _ h)
      · rintro s (rfl | hs)
        · have har : optLt (key a) (key r) = false := hmin a (Or.inl rfl)
          by_contra hbr
          rw [Bool.not_eq_false] at hbr
          exact absurd (optLt_trans hab hbr) (by simp [har])
        · rcases List.mem_cons.mp hs with rfl | hs'
          · exact hmin s (Or.inl rfl)
          · exact hmin s (Or.inr hs')
    · have hab' : optLt (key a) (key b) = false := by
        revert hab
        cases optLt (key a) (key b) <;> simp
      obtain ⟨r, hr, hmem, hmin⟩ := ih b
      have hstep : minStep key (some b) a = some b := by
        simp [minStep, hab']
      refine ⟨r, ?_, ?_, ?_⟩
      · rw [List.foldl_cons, hstep]
        exact hr
      · rcases hmem with rfl | h
        · exact Or.inl rfl
        · exact Or.inr (List.mem_cons_of_mem _ h)
      · rintro s (rfl | hs)
        · exact hmin s (Or.inl rfl)
        · rcases List.mem_cons.mp hs with rfl | hs'
          · have hbr : optLt (key b) (key r) = false := hmin b (Or.inl rfl)
            by_contra har
            rw [Bool.not_eq_false] at har
            exact absurd (optLt_le_lt_trans hab' har) (by simp [hbr])
          · exact hmin s (Or.inr hs')

lemma minByKey_spec (key : ModelRegistry → Option ℚ)
    (l : List ModelRegistry) (hne : l ≠ []) :
    ∃ r, minByKey key l = some r ∧ r ∈ l ∧
      ∀ s ∈ l, optLt (key s) (key r) = false := by
  cases l with
  | nil => exact absurd rfl hne
  | cons a t =>
    obtain ⟨r, hr, hmem, hmin⟩ := minByKey_go key t a
    refine ⟨r, ?_, ?_, ?_⟩
    · rw [minByKey, List.foldl_cons]
      exact hr
    · rcases hmem with rfl | h
      · exact List.mem_cons_self _ _
      · exact List.mem_cons_of_mem _ h
    · intro s hs
      rcases List.mem_cons.mp hs with rfl | hs'
      · exact hmin s (Or.inl rfl)
      · exact hmin s (Or.inr hs')

lemma minByKey_getD_min (key : ModelRegistry → Option ℚ)
    (reg : List ModelRegistry) (hne : reg ≠ [])
    (hall : ∀ r ∈ reg, (key r).isSome) :
    ∃ r, minByKey key reg = some r ∧ r ∈ reg ∧
      ∀ s ∈ reg, (key r).getD 0 ≤ (key s).getD 0 := by
  obtain ⟨r, h1, h2, h3⟩ := minByKey_spec key reg hne
  refine ⟨r, h1, h2, ?_⟩
  intro s hs
  obtain ⟨x, hx⟩ := Option.isSome_iff_exists.mp (hall r h2)
  obtain ⟨y, hy⟩ := Option.isSome_iff_exists.mp (hall s hs)
  have hlt := h3 s hs
  rw [hx, hy] at hlt
  simp only [optLt, decide_eq_false_iff_not] at hlt
  rw [hx, hy]
  simpa using le_of_not_lt hlt

/-- The three-version registry of the selection scenario, rmse values
`[5.0, 2.0, 8.0]`. -/
def rec3a : ModelRegistry :=
  ⟨"v1", "m1.h5", some 5, some 4, some 3, some 1, some 10, "combined", 1⟩

/-- The middle version, the one with the minimal rmse `2.0`. -/
def rec3b : ModelRegistry :=
  ⟨"v2", "m2.h5", some 2, some 6, some 7, some 1, some 10, "combined", 2⟩

/-- The third version. -/
def rec3c : ModelRegistry :=
  ⟨"v3", "m3.h5", some 8, some 9, some 5, some 1, some 10, "combined", 3⟩

/-- The example registry. -/
def reg3 : List ModelRegistry := [rec3a, rec3b, rec3c]

/-- C8.  On a non-empty registry whose rows carry the metric values:
`best(metric)` for each of `rmse`, `mae`, `mape` returns a registered
row attaining the minimum of that metric (lower is better for all
three); any other metric name yields the reported
`Invalid metric` error and no model; and on the `[5.0, 2.0, 8.0]`
example, `best("rmse")` returns the version with rmse `2.0`. -/
theorem best_model_selection :
    (∀ reg : List ModelRegistry, reg ≠ [] →
      (∀ r ∈ reg, r.rmse.isSome ∧ r.mae.isSome ∧ r.mape.isSome) →
      (∃ r, (get_best_model reg "rmse").1 = some r ∧ r ∈ reg ∧
        ∀ s ∈ reg, r.rmse.getD 0 ≤ s.rmse.getD 0) ∧
      (∃ r, (get_best_model reg "mae").1 = some r ∧ r ∈ reg ∧
        ∀ s ∈ reg, r.mae.getD 0 ≤ s.mae.getD 0) ∧
      (∃ r, (get_best_model reg "mape").1 = some r ∧ r ∈ reg ∧
        ∀ s ∈ reg, r.mape.getD 0 ≤ s.mape.getD 0)) ∧
    (∀ (reg : List ModelRegistry) (metric : String), metric ≠ "rmse" →
      metric ≠ "mae" → metric ≠ "mape" →
      get_best_model reg metric = (none, ["Invalid metric: " ++ metric])) ∧
    (get_best_model reg3 "rmse").1 = some rec3b := by
  refine ⟨?_, ?_, by decide⟩
  · intro reg hne hall
    refine ⟨?_, ?_, ?_⟩
    · obtain ⟨r, h1, h2, h3⟩ := minByKey_getD_min (fun r => r.rmse) reg hne
        (fun r hr => (hall r hr).1)
      exact ⟨r, by simpa [get_best_model] using h1, h2, h3⟩
    · obtain ⟨r, h1, h2, h3⟩ := minByKey_getD_min (fun r => r.mae) reg hne
        (fun r hr => (hall r hr).2.1)
      exact ⟨r, by simpa [get_best_model] using h1, h2, h3⟩
    · obtain ⟨r, h1, h2, h3⟩ := minByKey_getD_min (fun r => r.mape) reg hne
        (fun r hr => (hall r hr).2.2)
      exact ⟨r, by simpa [get_best_model] using h1, h2, h3⟩
  · intro reg metric h1 h2 h3
    have b1 : (metric == "rmse") = false := beq_eq_false_iff_ne.mpr h1
    have b2 : (metric == "mae") = false := beq_eq_false_iff_ne.mpr h2
    have b3 : (metric == "mape") = false := beq_eq_false_iff_ne.mpr h3
    simp [get_best_model, b1, b2, b3]

/-- C8 (witness): the selection law applied to the three-version
example registry. -/
theorem best_model_selection_witness :
    (∃ r, (get_best_model reg3 "rmse").1 = some r ∧ r ∈ reg3 ∧
      ∀ s ∈ reg3, r.rmse.getD 0 ≤ s.rmse.getD 0) ∧
    (∃ r, (get_best_model reg3 "mae").1 = some r ∧ r ∈ reg3 ∧
      ∀ s ∈ reg3, r.mae.getD 0 ≤ s.mae.getD 0) ∧
    (∃ r, (get_best_model reg3 "mape").1 = some r ∧ r ∈ reg3 ∧
      ∀ s ∈ reg3, r.mape.getD 0 ≤ s.mape.getD 0) :=
  best_model_selection.1 reg3 (by decide) (by decide)

end Petrol
